import Mathlib

/-!
# Verification of the toxcore DHT group-chat subsystem

Shallow embedding of the group-chat engine of this repository: the constants
and enumerations of `toxcore/group_chats.h`, the wire layouts described in
`docs/DHT_Group_Chats_Packet_Spec.md`, the replicated-state rules of
`docs/DHT-Group-Chats.md`, and (where the C implementation file is not part
of this source tree) models built from the written specification, each marked
as such in its doc comment.
-/

set_option maxRecDepth 4096

/-! ## Timer constants (toxcore/group_chats.h) -/

/-- `#define GC_PING_TIMEOUT 12` -/
def GC_PING_TIMEOUT : Nat := 12

/-- `#define GC_SEND_IP_PORT_INTERVAL (GC_PING_TIMEOUT * 5)` -/
def GC_SEND_IP_PORT_INTERVAL : Nat := GC_PING_TIMEOUT * 5

/-- `#define GC_CONFIRMED_PEER_TIMEOUT (GC_PING_TIMEOUT * 6 + 10)` -/
def GC_CONFIRMED_PEER_TIMEOUT : Nat := GC_PING_TIMEOUT * 6 + 10

/-- `#define GC_UNCONFIRMED_PEER_TIMEOUT GC_PING_TIMEOUT` -/
def GC_UNCONFIRMED_PEER_TIMEOUT : Nat := GC_PING_TIMEOUT

/-! ## Group join rejection reasons (toxcore/group_chats.h, `Group_Join_Rejected`) -/

/-- The `Group_Join_Rejected` enum of `toxcore/group_chats.h`: the one-byte
reason carried by an `INVITE_RESPONSE_REJECT` (0x03) lossy packet. -/
inductive Group_Join_Rejected where
  | GJ_GROUP_FULL
  | GJ_INVALID_PASSWORD
  | GJ_INVITE_FAILED
  | GJ_INVALID
  deriving DecidableEq

/-- Numeric values assigned in `toxcore/group_chats.h`. -/
def gjCode : Group_Join_Rejected → Nat
  | .GJ_GROUP_FULL => 0x00
  | .GJ_INVALID_PASSWORD => 0x01
  | .GJ_INVITE_FAILED => 0x02
  | .GJ_INVALID => 0x03

/-- Decoding a received rejection byte into the enum of `toxcore/group_chats.h`. -/
def gjOfCode (n : Nat) : Option Group_Join_Rejected :=
  if n = 0x00 then some .GJ_GROUP_FULL
  else if n = 0x01 then some .GJ_INVALID_PASSWORD
  else if n = 0x02 then some .GJ_INVITE_FAILED
  else if n = 0x03 then some .GJ_INVALID
  else none

/-- The rejection-reason enumeration as written in
`docs/DHT_Group_Chats_Packet_Spec.md` (INVITE_RESPONSE_REJECT section):
`NICK_TAKEN = 0`, `GROUP_FULL = 1`, `INVALID_PASSWORD = 2`, `INVITE_FAILED = 3`. -/
inductive Doc_Join_Rejected where
  | NICK_TAKEN
  | GROUP_FULL
  | INVALID_PASSWORD
  | INVITE_FAILED
  deriving DecidableEq

/-- Numeric values of the rejection reasons as listed in
`docs/DHT_Group_Chats_Packet_Spec.md`. -/
def docRejectCode : Doc_Join_Rejected → Nat
  | .NICK_TAKEN => 0
  | .GROUP_FULL => 1
  | .INVALID_PASSWORD => 2
  | .INVITE_FAILED => 3

/-! ## Group packet types (toxcore/group_chats.h, `Group_Packet_Type`) -/

/-- The `Group_Packet_Type` enum of `toxcore/group_chats.h`. -/
inductive Group_Packet_Type where
  | GP_PING
  | GP_MESSAGE_ACK
  | GP_INVITE_RESPONSE_REJECT
  | GP_KEY_ROTATION
  | GP_TCP_RELAYS
  | GP_CUSTOM_PACKET
  | GP_BROADCAST
  | GP_PEER_INFO_REQUEST
  | GP_PEER_INFO_RESPONSE
  | GP_INVITE_REQUEST
  | GP_INVITE_RESPONSE
  | GP_SYNC_REQUEST
  | GP_SYNC_RESPONSE
  | GP_TOPIC
  | GP_SHARED_STATE
  | GP_MOD_LIST
  | GP_SANCTIONS_LIST
  | GP_FRIEND_INVITE
  | GP_HS_RESPONSE_ACK
  deriving DecidableEq

/-- Numeric values assigned in `toxcore/group_chats.h`. -/
def gpCode : Group_Packet_Type → Nat
  | .GP_PING => 0x01
  | .GP_MESSAGE_ACK => 0x02
  | .GP_INVITE_RESPONSE_REJECT => 0x03
  | .GP_KEY_ROTATION => 0xf0
  | .GP_TCP_RELAYS => 0xf1
  | .GP_CUSTOM_PACKET => 0xf2
  | .GP_BROADCAST => 0xf3
  | .GP_PEER_INFO_REQUEST => 0xf4
  | .GP_PEER_INFO_RESPONSE => 0xf5
  | .GP_INVITE_REQUEST => 0xf6
  | .GP_INVITE_RESPONSE => 0xf7
  | .GP_SYNC_REQUEST => 0xf8
  | .GP_SYNC_RESPONSE => 0xf9
  | .GP_TOPIC => 0xfa
  | .GP_SHARED_STATE => 0xfb
  | .GP_MOD_LIST => 0xfc
  | .GP_SANCTIONS_LIST => 0xfd
  | .GP_FRIEND_INVITE => 0xfe
  | .GP_HS_RESPONSE_ACK => 0xff

/-- Dispatch of an embedded group-packet-type byte to the enum of
`toxcore/group_chats.h`; bytes that name no enumerator are unknown (dropped). -/
def gpOfCode (n : Nat) : Option Group_Packet_Type :=
  if n = 0x01 then some .GP_PING
  else if n = 0x02 then some .GP_MESSAGE_ACK
  else if n = 0x03 then some .GP_INVITE_RESPONSE_REJECT
  else if n = 0xf0 then some .GP_KEY_ROTATION
  else if n = 0xf1 then some .GP_TCP_RELAYS
  else if n = 0xf2 then some .GP_CUSTOM_PACKET
  else if n = 0xf3 then some .GP_BROADCAST
  else if n = 0xf4 then some .GP_PEER_INFO_REQUEST
  else if n = 0xf5 then some .GP_PEER_INFO_RESPONSE
  else if n = 0xf6 then some .GP_INVITE_REQUEST
  else if n = 0xf7 then some .GP_INVITE_RESPONSE
  else if n = 0xf8 then some .GP_SYNC_REQUEST
  else if n = 0xf9 then some .GP_SYNC_RESPONSE
  else if n = 0xfa then some .GP_TOPIC
  else if n = 0xfb then some .GP_SHARED_STATE
  else if n = 0xfc then some .GP_MOD_LIST
  else if n = 0xfd then some .GP_SANCTIONS_LIST
  else if n = 0xfe then some .GP_FRIEND_INVITE
  else if n = 0xff then some .GP_HS_RESPONSE_ACK
  else none

/-- A group packet type rides the lossless channel exactly when it is one of
the types listed under the `lossless packets` comment of the enum
(codes 0xf0 through 0xff); 0x01 - 0x03 are the lossy types. -/
def gpIsLossless (t : Group_Packet_Type) : Bool :=
  0xf0 ≤ gpCode t

/-! ## Roles and the topic lock -/

/-- The group role enumeration (`enum class ROLE` of the API in `tox.api.h`,
mirrored by `Group_Role` in the group headers): `FOUNDER`, `MODERATOR`,
`USER`, `OBSERVER`, hierarchical in that order. -/
inductive Group_Role where
  | GR_FOUNDER
  | GR_MODERATOR
  | GR_USER
  | GR_OBSERVER
  deriving DecidableEq

/-- Numeric values of the role enumerators, in declaration order. -/
def roleCode : Group_Role → Nat
  | .GR_FOUNDER => 0
  | .GR_MODERATOR => 1
  | .GR_USER => 2
  | .GR_OBSERVER => 3

/-- The `Group_Topic_Lock` enum of `toxcore/group_chats.h`:
`TL_ENABLED = 0x00` (only the Founder and moderators may set the topic),
`TL_DISABLED = 0x01` (anyone except Observers may set the topic). -/
inductive Group_Topic_Lock where
  | TL_ENABLED
  | TL_DISABLED
  deriving DecidableEq

/-- Numeric values assigned in `toxcore/group_chats.h`. -/
def topicLockCode : Group_Topic_Lock → Nat
  | .TL_ENABLED => 0x00
  | .TL_DISABLED => 0x01

/-- Modelled from the spec: the permission check of `gc_set_topic`
(`toxcore/group_chats.c` is not part of this source tree; the rule is stated
by the comments on `Group_Topic_Lock` and `gc_founder_set_topic_lock` in
`toxcore/group_chats.h`: when the topic lock is enabled, only the group
founder and moderators may set the topic; when disabled, all peers except
those with the observer role may set the topic). -/
def gc_set_topic_permitted (lock : Group_Topic_Lock) (r : Group_Role) : Bool :=
  match lock with
  | .TL_ENABLED => r = .GR_FOUNDER || r = .GR_MODERATOR
  | .TL_DISABLED => !(r = .GR_OBSERVER)

/-- The permission condition exactly as the written specification words it:
permitted iff (topic lock enabled and caller in set-of-founder-and-moderator)
or (topic lock disabled and the caller's role is at least `USER` in the
hierarchy, i.e. its numeric role value is at most that of `USER`). -/
def specSetTopicPermitted (lock : Group_Topic_Lock) (r : Group_Role) : Prop :=
  (lock = .TL_ENABLED ∧ (r = .GR_FOUNDER ∨ r = .GR_MODERATOR)) ∨
    (lock = .TL_DISABLED ∧ roleCode r ≤ roleCode .GR_USER)

/-! ## Shared state reception (docs/DHT-Group-Chats.md, "Shared state")

`toxcore/group_chats.c` is not part of this source tree; the receive rule is
the one written in the repository document: on receiving a broadcast shared
state, a peer "uses the group public signature key to verify that the data was
signed with the group secret signature key, and also verifies that the new
version is not older than the current version". -/

/-- A group shared state, reduced to the fields the versioning rule observes:
the `u32` version and an abstract rendering of the remaining signed fields. -/
structure GC_SharedState where
  version : Nat
  payload : Nat
  deriving DecidableEq

/-- An incoming `SHARED_STATE` (0xfb) packet: the carried state together with
the outcome of verifying its signature against the Chat ID (the cryptographic
primitive itself is outside the core). -/
structure GC_SharedStatePacket where
  sigValid : Bool
  state : GC_SharedState
  deriving DecidableEq

/-- Modelled from the spec: the `SHARED_STATE` receive handler, per
`docs/DHT-Group-Chats.md`: accept (replace the held state, second component
`true`) iff the signature verifies and the new version is not older than the
currently held version; otherwise drop (state unchanged, second component
`false`). -/
def handle_gc_shared_state (cur : GC_SharedState) (p : GC_SharedStatePacket) :
    GC_SharedState × Bool :=
  if p.sigValid && cur.version ≤ p.state.version then (p.state, true) else (cur, false)

/-- Folding a sequence of incoming `SHARED_STATE` packets through the handler. -/
def run_gc_shared_state (cur : GC_SharedState) : List GC_SharedStatePacket → GC_SharedState
  | [] => cur
  | p :: ps => run_gc_shared_state (handle_gc_shared_state cur p).1 ps

/-! ## Ping version vectors and the out-of-sync test
(docs/DHT-Group-Chats.md, "State syncing") -/

/-- The version vector carried by a group `PING` (0x01) packet: peer-list
checksum, confirmed ("real") peer count, shared state version, sanctions
credentials version, topic version. -/
structure GC_PingVector where
  peerListChecksum : Nat
  confirmedPeerCount : Nat
  sharedStateVersion : Nat
  sanctionsCredsVersion : Nat
  topicVersion : Nat
  deriving DecidableEq

/-- Modelled from the spec: the receiver's out-of-sync test, per
`docs/DHT-Group-Chats.md`: a peer decides it may be out of sync "if a peer
receives a ping in which any of the versions are greater than their own, or
if their peer list checksum does not match and their peer count is not
greater than the peer count received". -/
def gc_ping_out_of_sync (ours received : GC_PingVector) : Bool :=
  (ours.sharedStateVersion < received.sharedStateVersion
      || ours.sanctionsCredsVersion < received.sanctionsCredsVersion
      || ours.topicVersion < received.topicVersion)
    || (!(ours.peerListChecksum = received.peerListChecksum)
      && !(received.confirmedPeerCount < ours.confirmedPeerCount))

/-- Modelled from the spec: a `SYNC_REQUEST` (0xf8) is sent to the pinging
peer exactly when the out-of-sync test fires ("In this case they will send a
sync request to the respective peer"). -/
def gc_ping_sends_sync_request (ours received : GC_PingVector) : Bool :=
  gc_ping_out_of_sync ours received

/-! ## PING wire layout (docs/DHT_Group_Chats_Packet_Spec.md vs
docs/DHT-Group-Chats.md) -/

/-- Byte widths of the `PING` (0x01) payload fields exactly as written in the
PING section of `docs/DHT_Group_Chats_Packet_Spec.md`: peerlist checksum,
confirmed peer count, shared state version, sanctions credentials version,
topic version (the optional packed IP/port follows and is excluded here). -/
def pingFieldWidths_packetSpec : List Nat := [2, 2, 2, 2, 2]

/-- Byte widths of the same five fields as described by
`docs/DHT-Group-Chats.md` ("Peers send two unsigned 16-bit integers and three
unsigned 32-bit integers along with their ping packets"). -/
def pingFieldWidths_overview : List Nat := [2, 2, 4, 4, 4]

/-- Byte width of the shared state version field in the `SHARED_STATE` (0xfb)
packet, per `docs/DHT_Group_Chats_Packet_Spec.md`: `4 bytes: shared state
version`. -/
def sharedStateVersionWidth_sharedStatePacket : Nat := 4

/-- Byte width of the topic version field in the `TOPIC` (0xfa) packet, per
`docs/DHT_Group_Chats_Packet_Spec.md`: `4 bytes: topic version`. -/
def topicVersionWidth_topicPacket : Nat := 4

/-- Byte width of the version field in the packed sanctions credentials, per
`docs/DHT_Group_Chats_Packet_Spec.md` (SANCTIONS_LIST section): `4 bytes:
version`. -/
def sanctionsCredsVersionWidth_sanctionsPacket : Nat := 4

/-! ## Moderation: sanctions re-signing on demotion
(docs/DHT-Group-Chats.md, "Sanctions list" and "Topics") -/

/-- A sanctions list entry, reduced to what the authority invariant observes:
the public signature key of the peer who set the sanction and the public
encryption key of the sanctioned peer. -/
structure GC_Sanction where
  setterSigPk : Nat
  targetEncPk : Nat
  deriving DecidableEq

/-- The topic info record, reduced to the public signature key of its setter. -/
structure GC_TopicInfo where
  setterSigPk : Nat
  deriving DecidableEq

/-- The moderation-relevant group state: the founder's public signature key,
the moderator list, the sanctions list, and the topic info. -/
structure GC_ModState where
  founderSigPk : Nat
  modList : List Nat
  sanctions : List GC_Sanction
  topic : GC_TopicInfo
  deriving DecidableEq

/-- A signature key is currently authoritative when it is the founder's or is
present in the moderator list (`docs/DHT-Group-Chats.md`: entries "are
verified by ensuring that the entry's public signature key belongs to the
founder or is present in the moderator list"). -/
def gc_authoritative (s : GC_ModState) (k : Nat) : Prop :=
  k = s.founderSigPk ∨ k ∈ s.modList

/-- The invariant of `docs/DHT-Group-Chats.md`: every sanctions entry and the
topic are signed by a currently authoritative key ("all sanctions list
entries and its credentials are signed by a current moderator or the founder
at all times"). -/
def gc_mod_invariant (s : GC_ModState) : Prop :=
  (∀ e ∈ s.sanctions, gc_authoritative s e.setterSigPk) ∧
    gc_authoritative s s.topic.setterSigPk

/-- Modelled from the spec: the founder kicking or demoting moderator `m`
(`toxcore/group_moderation.c` is not part of this source tree), per
`docs/DHT-Group-Chats.md`: the founder removes `m` from the moderator list,
"will first go through the sanctions list and re-sign each entry made by that
moderator using the founder key", and "if the moderator who set the current
topic is kicked or demoted, the founder will re-sign the topic using his own
signature key". -/
def gc_founder_demote_mod (s : GC_ModState) (m : Nat) : GC_ModState where
  founderSigPk := s.founderSigPk
  modList := s.modList.filter (fun k => !(k = m))
  sanctions := s.sanctions.map (fun e =>
    if e.setterSigPk = m then { e with setterSigPk := s.founderSigPk } else e)
  topic := if s.topic.setterSigPk = m then { setterSigPk := s.founderSigPk } else s.topic

/-- Modelled from the spec: the founder promoting peer `k` to moderator adds
that peer's public signature key to the moderator list
(`docs/DHT-Group-Chats.md`, "Moderator list"). -/
def gc_founder_promote_mod (s : GC_ModState) (k : Nat) : GC_ModState where
  founderSigPk := s.founderSigPk
  modList := k :: s.modList
  sanctions := s.sanctions
  topic := s.topic

/-! ## Setting one's own nickname (toxcore/group_chats.h, `gc_set_self_nick`) -/

/-- Maximum nickname length (`TOX_MAX_NAME_LENGTH` / `MAX_GC_NICK_SIZE`):
128 bytes. -/
def MAX_GC_NICK_SIZE : Nat := 128

/-- Result of `gc_set_self_nick`, per the contract in
`toxcore/group_chats.h`: 0 on success, -1 invalid group, -2 length too long,
-3 zero length or null nick, -4 nick already taken, -5 send failure. -/
inductive SetSelfNickResult where
  | ok
  | invalidGroup
  | tooLong
  | invalidNick
  | nickTaken
  | failSend
  deriving DecidableEq

/-- The C return code of each `gc_set_self_nick` outcome. -/
def setSelfNickCode : SetSelfNickResult → Int
  | .ok => 0
  | .invalidGroup => -1
  | .tooLong => -2
  | .invalidNick => -3
  | .nickTaken => -4
  | .failSend => -5

/-- Modelled from the spec: `gc_set_self_nick` (`toxcore/group_chats.c` is
not part of this source tree; the contract is the doc comment in
`toxcore/group_chats.h` together with the `TAKEN` error of `self_name_set` in
`tox.api.h`). `others` holds the nicknames currently held by the other peers
of the group, `self` the caller's current nickname, `nick` the requested one
(a byte list). The function returns the outcome and the caller's nickname
after the call. -/
def gc_set_self_nick (others : List (List Nat)) (self nick : List Nat) :
    SetSelfNickResult × List Nat :=
  if nick.length = 0 then (.invalidNick, self)
  else if MAX_GC_NICK_SIZE < nick.length then (.tooLong, self)
  else if nick ∈ others then (.nickTaken, self)
  else (.ok, nick)

/-! ## The lossless ordered channel (per-link receive side)

`toxcore/group_connection.c` is not part of this source tree. The receive
algorithm is modelled from the spec: each lossless packet carries a `u64`
message id drawn from a monotonic counter starting at 1; the receiver keeps
`next_expected` and an out-of-order buffer; a packet with
`id == next_expected` is processed in order, the counter advances, and any
buffered successors are drained; a packet with `id > next_expected` is
buffered (duplicates suppressed); a packet with `id < next_expected` is
acked again and dropped. -/

/-- Modelled from the spec: after processing message id `next - 1`, deliver
from `buf` the ids `next`, `next + 1`, ... for as long as they are buffered,
removing each from the buffer. The loop runs at most once per buffered
element, so it is bounded by the buffer length (`fuel`). Returns the drained
ids in delivery order, the new `next_expected`, and the remaining buffer. -/
def gc_drain_loop : Nat → Nat → List Nat → List Nat × Nat × List Nat
  | 0, next, buf => ([], next, buf)
  | fuel + 1, next, buf =>
    if next ∈ buf then
      let r := gc_drain_loop fuel (next + 1) (buf.erase next)
      (next :: r.1, r.2)
    else
      ([], next, buf)

/-- Modelled from the spec: drain the out-of-order buffer starting at `next`
(the loop of `gc_drain_loop` with its natural bound). -/
def gc_drain_buffer (next : Nat) (buf : List Nat) : List Nat × Nat × List Nat :=
  gc_drain_loop buf.length next buf

/-- Receive-side state of one lossless link: the next expected message id and
the out-of-order buffer. -/
structure GC_RecvState where
  nextExpected : Nat
  buffer : List Nat
  deriving DecidableEq

/-- Modelled from the spec: the receiver's handling of one incoming lossless
packet with message id `id`. Returns the new state and the ids delivered to
the application by this packet, in delivery order. `id == next_expected` is
delivered followed by the drained buffered successors; `id > next_expected`
is buffered (duplicate suppression); `id < next_expected` is dropped. -/
def gc_handle_lossless (s : GC_RecvState) (id : Nat) : GC_RecvState × List Nat :=
  if id = s.nextExpected then
    let r := gc_drain_buffer (s.nextExpected + 1) s.buffer
    (⟨r.2.1, r.2.2⟩, id :: r.1)
  else if s.nextExpected < id then
    (⟨s.nextExpected, if id ∈ s.buffer then s.buffer else id :: s.buffer⟩, [])
  else
    (s, [])

/-- Running the receiver over a whole arrival sequence (the network may
reorder, duplicate and redeliver); returns the final state and the
concatenation of everything delivered to the application, in delivery
order. -/
def gc_run_lossless (s : GC_RecvState) : List Nat → GC_RecvState × List Nat
  | [] => (s, [])
  | id :: rest =>
    let r := gc_handle_lossless s id
    let r2 := gc_run_lossless r.1 rest
    (r2.1, r.2 ++ r2.2)

/-- The receiver state of a fresh link: lossless message ids start at 1. -/
def gc_initial_recv_state : GC_RecvState := ⟨1, []⟩

/-- Well-formedness of a receive state: the buffer holds no duplicates and
only ids strictly beyond `next_expected`. -/
def gc_recv_wf (s : GC_RecvState) : Prop :=
  s.buffer.Nodup ∧ ∀ e ∈ s.buffer, s.nextExpected < e

/-! ## Lemmas about the lossless receive side -/

/-- With enough fuel, draining a duplicate-free buffer delivers exactly the
contiguous id range from `next` up to the new next-expected id, and every id
left in the buffer either predates `next` or lies strictly beyond the new
next-expected id. -/
theorem gc_drain_loop_spec (fuel : Nat) :
    ∀ (next : Nat) (buf : List Nat), buf.Nodup → buf.length ≤ fuel →
      (gc_drain_loop fuel next buf).1 =
          List.range' next ((gc_drain_loop fuel next buf).2.1 - next) ∧
        next ≤ (gc_drain_loop fuel next buf).2.1 ∧
        (gc_drain_loop fuel next buf).2.2.Nodup ∧
        ∀ e ∈ (gc_drain_loop fuel next buf).2.2,
          e ∈ buf ∧ (e < next ∨ (gc_drain_loop fuel next buf).2.1 < e) := by
  induction fuel with
  | zero =>
    intro next buf hnd hf
    simp only [gc_drain_loop]
    refine ⟨by simp, Nat.le_refl _, hnd, ?_⟩
    intro e he
    have : buf = [] := List.eq_nil_of_length_eq_zero (Nat.le_zero.1 hf)
    rw [this] at he
    exact absurd he (List.not_mem_nil e)
  | succ fuel ih =>
    intro next buf hnd hf
    by_cases h : next ∈ buf
    · have hnd' : (buf.erase next).Nodup := hnd.erase next
      have hf' : (buf.erase next).length ≤ fuel := by
        rw [List.length_erase_of_mem h]
        have : 0 < buf.length := List.length_pos.mpr (List.ne_nil_of_mem h)
        omega
      obtain ⟨h1, h2, h3, h4⟩ := ih (next + 1) (buf.erase next) hnd' hf'
      simp only [gc_drain_loop, if_pos h]
      refine ⟨?_, by omega, h3, ?_⟩
      · have heq : (gc_drain_loop fuel (next + 1) (buf.erase next)).2.1 - next =
            ((gc_drain_loop fuel (next + 1) (buf.erase next)).2.1 - (next + 1)) + 1 := by omega
        rw [heq, List.range'_succ, h1]
      · intro e he
        obtain ⟨he1, he2⟩ := h4 e he
        have hne : e ≠ next := ((List.Nodup.mem_erase_iff hnd).1 he1).1
        exact ⟨List.mem_of_mem_erase he1, by omega⟩
    · simp only [gc_drain_loop, if_neg h]
      refine ⟨by simp, Nat.le_refl _, hnd, ?_⟩
      intro e he
      have hne : e ≠ next := fun hc => h (hc ▸ he)
      exact ⟨he, by omega⟩

/-- Draining a duplicate-free buffer delivers exactly the contiguous id range
from `next` up to the new next-expected id, and every id left in the buffer
either predates `next` or lies strictly beyond the new next-expected id. -/
theorem gc_drain_buffer_spec (next : Nat) (buf : List Nat) (hnd : buf.Nodup) :
    (gc_drain_buffer next buf).1 =
        List.range' next ((gc_drain_buffer next buf).2.1 - next) ∧
      next ≤ (gc_drain_buffer next buf).2.1 ∧
      (gc_drain_buffer next buf).2.2.Nodup ∧
      ∀ e ∈ (gc_drain_buffer next buf).2.2,
        e ∈ buf ∧ (e < next ∨ (gc_drain_buffer next buf).2.1 < e) :=
  gc_drain_loop_spec buf.length next buf hnd (Nat.le_refl _)

/-- Two adjacent contiguous ranges glue into one. -/
theorem range'_glue (a b c : Nat) (h1 : a ≤ b) (h2 : b ≤ c) :
    List.range' a (b - a) ++ List.range' b (c - b) = List.range' a (c - a) := by
  have hb : a + (b - a) = b := Nat.add_sub_cancel' h1
  calc List.range' a (b - a) ++ List.range' b (c - b)
      = List.range' a (b - a) ++ List.range' (a + (b - a)) (c - b) := by rw [hb]
    _ = List.range' a ((c - b) + (b - a)) := List.range'_append_1 a (b - a) (c - b)
    _ = List.range' a (c - a) := by congr 1; omega

/-- One step of the receiver preserves well-formedness, never moves
`next_expected` backwards, and delivers exactly the contiguous id range from
the old to the new `next_expected`. -/
theorem gc_handle_lossless_spec (s : GC_RecvState) (id : Nat) (hwf : gc_recv_wf s) :
    gc_recv_wf (gc_handle_lossless s id).1 ∧
      s.nextExpected ≤ (gc_handle_lossless s id).1.nextExpected ∧
      (gc_handle_lossless s id).2 =
        List.range' s.nextExpected
          ((gc_handle_lossless s id).1.nextExpected - s.nextExpected) := by
  obtain ⟨hnd, hgt⟩ := hwf
  unfold gc_handle_lossless
  by_cases h1 : id = s.nextExpected
  · obtain ⟨d1, d2, d3, d4⟩ := gc_drain_buffer_spec (s.nextExpected + 1) s.buffer hnd
    rw [if_pos h1]
    dsimp only [gc_recv_wf]
    refine ⟨⟨d3, ?_⟩, by omega, ?_⟩
    · intro e he
      obtain ⟨he1, he2⟩ := d4 e he
      have := hgt e he1
      omega
    · have heq : (gc_drain_buffer (s.nextExpected + 1) s.buffer).2.1 - s.nextExpected =
          ((gc_drain_buffer (s.nextExpected + 1) s.buffer).2.1 - (s.nextExpected + 1)) + 1 := by
        omega
      rw [heq, List.range'_succ, h1, d1]
  · rw [if_neg h1]
    by_cases h2 : s.nextExpected < id
    · rw [if_pos h2]
      dsimp only [gc_recv_wf]
      refine ⟨⟨?_, ?_⟩, Nat.le_refl _, by simp⟩
      · by_cases h3 : id ∈ s.buffer
        · simpa [h3] using hnd
        · rw [if_neg h3]
          exact List.Nodup.cons h3 hnd
      · intro e he
        by_cases h3 : id ∈ s.buffer
        · rw [if_pos h3] at he
          exact hgt e he
        · rw [if_neg h3] at he
          rcases List.mem_cons.1 he with he' | he'
          · omega
          · exact hgt e he'
    · rw [if_neg h2]
      exact ⟨⟨hnd, hgt⟩, Nat.le_refl _, by simp⟩

/-- Running the receiver over any arrival sequence preserves well-formedness,
never moves `next_expected` backwards, and delivers exactly the contiguous id
range from the starting to the final `next_expected`. -/
theorem gc_run_lossless_spec (arr : List Nat) (s : GC_RecvState) (hwf : gc_recv_wf s) :
    gc_recv_wf (gc_run_lossless s arr).1 ∧
      s.nextExpected ≤ (gc_run_lossless s arr).1.nextExpected ∧
      (gc_run_lossless s arr).2 =
        List.range' s.nextExpected
          ((gc_run_lossless s arr).1.nextExpected - s.nextExpected) := by
  induction arr generalizing s with
  | nil => exact ⟨hwf, Nat.le_refl _, by simp [gc_run_lossless]⟩
  | cons id rest ih =>
    obtain ⟨hwf', hle, hd⟩ := gc_handle_lossless_spec s id hwf
    obtain ⟨hwf'', hle', hd'⟩ := ih _ hwf'
    simp only [gc_run_lossless]
    refine ⟨hwf'', by omega, ?_⟩
    rw [hd, hd']
    exact range'_glue _ _ _ hle hle'

/-- Acceptance of one `SHARED_STATE` packet never lowers the held version. -/
theorem handle_gc_shared_state_version_mono (cur : GC_SharedState) (p : GC_SharedStatePacket) :
    cur.version ≤ (handle_gc_shared_state cur p).1.version := by
  unfold handle_gc_shared_state
  split
  · next h =>
    dsimp only
    exact (Bool.and_eq_true .. ▸ h).2 |> fun h' => by
      exact Nat.le_of_eq rfl |>.trans (by simpa using of_decide_eq_true h')
  · exact Nat.le_refl _

/-- Over any sequence of incoming `SHARED_STATE` packets the held version is
monotone non-decreasing. -/
theorem run_gc_shared_state_version_mono (ps : List GC_SharedStatePacket)
    (cur : GC_SharedState) : cur.version ≤ (run_gc_shared_state cur ps).version := by
  induction ps generalizing cur with
  | nil => exact Nat.le_refl _
  | cons p ps ih =>
    exact (handle_gc_shared_state_version_mono cur p).trans (ih _)

/-! ## Claim theorems -/

/-- C1: for every pair of lossless packets m1, m2 sent by the same peer on
the same group with m1 sent before m2 (message ids are drawn from a monotonic
counter starting at 1, so sending order is id order), the receiving peer's
application-level delivery observes m1 before m2: whatever arrival order,
duplication and redelivery the network produces, the sequence of message
upcalls at the receiver is exactly `1, 2, 3, ...` — the sending order. -/
theorem gc_lossless_delivery_in_send_order (arr : List Nat) :
    (gc_run_lossless gc_initial_recv_state arr).2 =
      List.range' 1 ((gc_run_lossless gc_initial_recv_state arr).2).length := by
  have hwf : gc_recv_wf gc_initial_recv_state := ⟨List.nodup_nil, by simp [gc_initial_recv_state]⟩
  obtain ⟨-, -, hd⟩ := gc_run_lossless_spec arr gc_initial_recv_state hwf
  rw [hd, List.length_range']
  rfl

/-- C2 counterexample: redelivering the already-accepted shared-state version
is not a drop. With held version 5, an incoming validly-signed `SHARED_STATE`
packet carrying the same version 5 satisfies "version ≤ current", yet the
receive rule of `docs/DHT-Group-Chats.md` ("verifies that the new version is
not older than the current version") accepts it (replaces the state and
reports acceptance) instead of dropping it. -/
theorem gc_shared_state_redelivery_accepted :
    (handle_gc_shared_state ⟨5, 7⟩ ⟨true, ⟨5, 7⟩⟩).2 = true ∧
      (handle_gc_shared_state ⟨5, 7⟩ ⟨true, ⟨5, 0⟩⟩).1 = ⟨5, 0⟩ := by decide

/-- C2 (amended): an incoming `SHARED_STATE` packet is accepted iff its
signature verifies and its version is not older than (≥) the held version;
a dropped packet leaves the state unchanged, and the held version never
decreases — the accepted versions form a non-decreasing (not necessarily
strictly increasing) sequence. -/
theorem gc_shared_state_version_rule (cur : GC_SharedState) (p : GC_SharedStatePacket)
    (ps : List GC_SharedStatePacket) :
    ((handle_gc_shared_state cur p).2 = true ↔
        (p.sigValid = true ∧ cur.version ≤ p.state.version)) ∧
      (handle_gc_shared_state cur p).1 =
        (if p.sigValid = true ∧ cur.version ≤ p.state.version then p.state else cur) ∧
      cur.version ≤ (run_gc_shared_state cur ps).version := by
  refine ⟨?_, ?_, run_gc_shared_state_version_mono ps cur⟩
  · unfold handle_gc_shared_state
    split
    · next h =>
      simp only [Bool.and_eq_true, decide_eq_true_eq] at h
      simpa using h
    · next h =>
      simp only [Bool.and_eq_true, decide_eq_true_eq] at h
      simpa using h
  · unfold handle_gc_shared_state
    split
    · next h =>
      simp only [Bool.and_eq_true, decide_eq_true_eq] at h
      rw [if_pos h]
    · next h =>
      simp only [Bool.and_eq_true, decide_eq_true_eq] at h
      rw [if_neg h]

/-- C3: when the founder removes (demotes or kicks) a moderator, the founder
re-signs with the founder key every sanctions entry previously signed by that
moderator and, if the removed moderator set the current topic, re-signs the
topic; hence the invariant "every sanctions entry and the topic are signed by
a key that is currently the founder's or currently in the moderator list"
holds after every moderator-list change (removal or promotion). -/
theorem gc_mod_invariant_preserved (s : GC_ModState) (m k : Nat)
    (h : gc_mod_invariant s) :
    gc_mod_invariant (gc_founder_demote_mod s m) ∧
      gc_mod_invariant (gc_founder_promote_mod s k) := by
  obtain ⟨hs, ht⟩ := h
  constructor
  · constructor
    · intro e he
      simp only [gc_founder_demote_mod, List.mem_map] at he
      obtain ⟨e0, he0, heq⟩ := he
      by_cases hm : e0.setterSigPk = m
      · rw [if_pos hm] at heq
        left
        rw [← heq]
        rfl
      · rw [if_neg hm] at heq
        rcases hs e0 he0 with hf | hmod
        · left
          rw [← heq]
          exact hf
        · right
          rw [← heq]
          dsimp only [gc_founder_demote_mod]
          rw [List.mem_filter]
          exact ⟨hmod, by simpa using hm⟩
    · dsimp only [gc_founder_demote_mod, gc_authoritative]
      by_cases hm : s.topic.setterSigPk = m
      · rw [if_pos hm]
        left
        rfl
      · rw [if_neg hm]
        rcases ht with hf | hmod
        · left
          exact hf
        · right
          rw [List.mem_filter]
          exact ⟨hmod, by simpa using hm⟩
  · constructor
    · intro e he
      rcases hs e he with hf | hmod
      · left
        exact hf
      · right
        exact List.mem_cons_of_mem k hmod
    · rcases ht with hf | hmod
      · left
        exact hf
      · right
        exact List.mem_cons_of_mem k hmod

/-- C3 witness: a concrete group where founder key 0 demotes moderator key 1,
the signer of the single sanctions entry and of the topic; the invariant
holds before and after the demotion. -/
theorem gc_mod_invariant_preserved_witness :
    gc_mod_invariant ⟨0, [1], [⟨1, 9⟩], ⟨1⟩⟩ ∧
      gc_mod_invariant (gc_founder_demote_mod ⟨0, [1], [⟨1, 9⟩], ⟨1⟩⟩ 1) := by
  have h0 : gc_mod_invariant ⟨0, [1], [⟨1, 9⟩], ⟨1⟩⟩ := by
    constructor
    · intro e he
      simp only [List.mem_singleton] at he
      right
      rw [he]
      simp [gc_authoritative]
    · right
      simp
  exact ⟨h0, (gc_mod_invariant_preserved ⟨0, [1], [⟨1, 9⟩], ⟨1⟩⟩ 1 0 h0).1⟩

/-- C4 counterexample: the confirmed-peer timeout constant of
`toxcore/group_chats.h` is `GC_PING_TIMEOUT * 6 + 10 = 82` seconds, which is
not 72 seconds and not even within a generous ±10% band around 72
(65..79) — so it is not "approximately 72 s". -/
theorem GC_CONFIRMED_PEER_TIMEOUT_not_approx_72 :
    GC_CONFIRMED_PEER_TIMEOUT = 82 ∧ GC_CONFIRMED_PEER_TIMEOUT ≠ 72 ∧
      ¬(65 ≤ GC_CONFIRMED_PEER_TIMEOUT ∧ GC_CONFIRMED_PEER_TIMEOUT ≤ 79) := by decide

/-- C4 (amended): the confirmed-peer timeout after which a link with no
received ping is torn down is `GC_PING_TIMEOUT * 6 + 10 = 82` seconds (with
`GC_PING_TIMEOUT = 12`), and the unconfirmed-peer timeout is 12 seconds. -/
theorem GC_CONFIRMED_PEER_TIMEOUT_eq_82 :
    GC_CONFIRMED_PEER_TIMEOUT = GC_PING_TIMEOUT * 6 + 10 ∧
      GC_CONFIRMED_PEER_TIMEOUT = 82 ∧ GC_UNCONFIRMED_PEER_TIMEOUT = 12 := by decide

/-- C5 counterexample: the engine's rejection-reason enum
(`Group_Join_Rejected` in `toxcore/group_chats.h`) does not match the claimed
reason set. At the concrete reason byte 0 — which the claimed set (per
`docs/DHT_Group_Chats_Packet_Spec.md`) reads as `NICK_TAKEN` — the engine's
enum reads `GJ_GROUP_FULL`; the engine's byte for a full group (0x00) differs
from the claimed set's `GROUP_FULL` (1); and the byte the claimed set reads
as `INVITE_FAILED` (3) is the engine's `GJ_INVALID` marker. -/
theorem gc_invite_reject_reason_mismatch :
    gjOfCode (docRejectCode Doc_Join_Rejected.NICK_TAKEN) =
        some Group_Join_Rejected.GJ_GROUP_FULL ∧
      gjCode Group_Join_Rejected.GJ_GROUP_FULL ≠ docRejectCode Doc_Join_Rejected.GROUP_FULL ∧
      gjOfCode (docRejectCode Doc_Join_Rejected.INVITE_FAILED) =
        some Group_Join_Rejected.GJ_INVALID := by decide

/-- C5 (amended): a rejected invite request is answered with a lossy
`INVITE_RESPONSE_REJECT` (0x03) packet whose one-byte reason is drawn from
exactly `Group_Join_Rejected` = { GROUP_FULL = 0x00, INVALID_PASSWORD = 0x01,
INVITE_FAILED = 0x02, INVALID = 0x03 }; there is no distinct nick-taken wire
reason code (a name-taken failure exists only in the client-API `JOIN_FAIL`
enumeration). -/
theorem gc_invite_reject_reasons (r : Group_Join_Rejected) :
    gpCode Group_Packet_Type.GP_INVITE_RESPONSE_REJECT = 0x03 ∧
      gpIsLossless Group_Packet_Type.GP_INVITE_RESPONSE_REJECT = false ∧
      gjOfCode (gjCode r) = some r ∧ gjCode r ≤ 0x03 ∧
      (r = Group_Join_Rejected.GJ_GROUP_FULL ∨ r = Group_Join_Rejected.GJ_INVALID_PASSWORD ∨
        r = Group_Join_Rejected.GJ_INVITE_FAILED ∨ r = Group_Join_Rejected.GJ_INVALID) := by
  cases r <;> decide

/-- C6: setting the topic is permitted with respect to permissions iff either
the topic lock is enabled and the caller is the Founder or a Moderator, or
the topic lock is disabled and the caller's role is at least User (any role
except Observer). -/
theorem gc_set_topic_permission_iff (lock : Group_Topic_Lock) (r : Group_Role) :
    gc_set_topic_permitted lock r = true ↔ specSetTopicPermitted lock r := by
  cases lock <;> cases r <;>
    simp [gc_set_topic_permitted, specSetTopicPermitted, roleCode]

/-- C7: on a received PING version vector the receiver decides it is
out-of-sync with the sender — and sends a SYNC_REQUEST — iff some received
artifact version (shared state, sanctions credentials, topic) strictly
exceeds its own, or the received peer-list checksum differs from its own and
the received confirmed-peer count is ≥ its own confirmed-peer count. -/
theorem gc_ping_out_of_sync_iff (ours received : GC_PingVector) :
    gc_ping_sends_sync_request ours received = true ↔
      (ours.sharedStateVersion < received.sharedStateVersion ∨
        ours.sanctionsCredsVersion < received.sanctionsCredsVersion ∨
        ours.topicVersion < received.topicVersion ∨
        (received.peerListChecksum ≠ ours.peerListChecksum ∧
          ours.confirmedPeerCount ≤ received.confirmedPeerCount)) := by
  unfold gc_ping_sends_sync_request gc_ping_out_of_sync
  simp only [Bool.or_eq_true, Bool.and_eq_true, Bool.not_eq_true', decide_eq_true_eq,
    decide_eq_false_iff_not, Nat.not_lt]
  omega

/-- C8: the repository's own wire documents disagree on the PING version
vector. The PING section of `docs/DHT_Group_Chats_Packet_Spec.md` gives every
field 2 bytes (10 bytes total), while `docs/DHT-Group-Chats.md` says the ping
carries two unsigned 16-bit integers and three unsigned 32-bit integers (16
bytes total) — and the packet-spec document itself gives the very same
shared-state, topic, and sanctions-credentials version fields 4 bytes in its
`SHARED_STATE`, `TOPIC` and `SANCTIONS_LIST` sections. Evaluated at the
failing input (the third PING field, the shared-state version): 2 bytes per
the PING section, 4 bytes per everything else. -/
theorem gc_ping_field_width_doc_conflict :
    pingFieldWidths_packetSpec ≠ pingFieldWidths_overview ∧
      pingFieldWidths_packetSpec[2]? = some 2 ∧
      pingFieldWidths_overview[2]? = some 4 ∧
      sharedStateVersionWidth_sharedStatePacket = 4 ∧
      topicVersionWidth_topicPacket = 4 ∧
      sanctionsCredsVersionWidth_sanctionsPacket = 4 ∧
      pingFieldWidths_packetSpec.sum = 10 ∧ pingFieldWidths_overview.sum = 16 := by decide

/-- C9: the lossless group packet types accepted by the engine include a
`KEY_ROTATION` type with identifier 0xf0 in addition to 0xf1 through 0xff:
the dispatch maps 0xf0 to `GP_KEY_ROTATION`, which is a lossless type, every
byte 0xf1..0xff also dispatches to a type, and the next byte down (0xef) is
unknown (dropped). -/
theorem gc_key_rotation_valid_lossless :
    gpOfCode 0xf0 = some Group_Packet_Type.GP_KEY_ROTATION ∧
      gpCode Group_Packet_Type.GP_KEY_ROTATION = 0xf0 ∧
      gpIsLossless Group_Packet_Type.GP_KEY_ROTATION = true ∧
      ((List.range' 0xf1 15).all fun n => (gpOfCode n).isSome) = true ∧
      gpOfCode 0xef = none := by decide

/-- C10: setting one's own nickname after joining fails with the distinct
nick-taken error (C return code -4) and leaves the current nickname
unchanged whenever the requested nickname — of non-zero length at most
`MAX_GC_NICK_SIZE` — is already held by another peer in the group. -/
theorem gc_set_self_nick_taken (others : List (List Nat)) (self nick : List Nat)
    (h0 : nick.length ≠ 0) (h1 : nick.length ≤ MAX_GC_NICK_SIZE) (h2 : nick ∈ others) :
    gc_set_self_nick others self nick = (SetSelfNickResult.nickTaken, self) ∧
      setSelfNickCode (gc_set_self_nick others self nick).1 = -4 ∧
      (gc_set_self_nick others self nick).2 = self := by
  unfold gc_set_self_nick
  rw [if_neg h0, if_neg (by omega), if_pos h2]
  exact ⟨rfl, rfl, rfl⟩

/-- C10 witness: requesting nickname `[3]` (non-empty, within the length
bound, already held by another peer) from current nickname `[9]` is refused
with the nick-taken outcome and the nickname stays `[9]`. -/
theorem gc_set_self_nick_taken_witness :
    ([3] : List Nat).length ≠ 0 ∧ ([3] : List Nat).length ≤ MAX_GC_NICK_SIZE ∧
      [3] ∈ [[3], [4]] ∧
      gc_set_self_nick [[3], [4]] [9] [3] = (SetSelfNickResult.nickTaken, [9]) := by
  exact ⟨by decide, by decide, by decide,
    (gc_set_self_nick_taken [[3], [4]] [9] [3] (by decide) (by decide) (by decide)).1⟩
